import Mathlib

/-!
Verification development for the imports microservice
(`services/imports/server.js` of the javascript_node repository).

The service is embedded shallowly:

* The SQLite database visible to this service is a `DB` record of four
  tables (lists of rows), mirroring the schema in the database
  bootstrap script (`imports`, `import_items`, `suppliers`, `users` /
  `products` as referenced by the handlers).
* Each Express handler becomes a pure Lean function from the request
  data (after JSON parsing and Joi validation typing) and the current
  `DB` to a response plus the new `DB`.  Request fields that JavaScript
  leaves `undefined` are `Option`s.
* JavaScript numbers are IEEE-754 binary64 values.  Every binary64
  value is an exact rational, so monetary amounts are carried as `ℚ`,
  and each JS arithmetic operation rounds its exact rational result to
  the nearest representable binary64 (ties to even) via `fl` below.
  The modelled range is the normal range of binary64, which covers all
  monetary values that appear in this development.
* Nondeterministic inputs (`Date.now()`, `Math.random()`, autoincrement
  row ids, `CURRENT_TIMESTAMP`) are explicit parameters.
* Storage faults are modelled exactly where a claim concerns them: the
  item-insertion loop of order creation takes a failure schedule
  (`itemFail`), and the `UNIQUE` constraint on `import_code` makes the
  header insertion fail on a duplicate code.

The library's rational arithmetic is marked irreducible for display
purposes only; it is restored to its normal reducibility so that
concrete rational computations can be evaluated by `decide`.
-/

set_option allowUnsafeReducibility true
attribute [semireducible] Rat.mul Rat.inv Rat.add Rat.sub

deriving instance DecidableEq for Except

/-! ## IEEE-754 binary64 arithmetic on exact rationals -/

/-- Floor of a rational as an integer (`Int.ediv` floors because the
denominator of a `Rat` is positive). -/
def qfloor (q : ℚ) : ℤ := Int.ediv q.num q.den

/-- Ceiling of a rational as an integer. -/
def qceil (q : ℚ) : ℤ := -(qfloor (-q))

/-- Round a rational to the nearest integer, ties to even. -/
def roundNearestEven (q : ℚ) : ℤ :=
  let f := qfloor q
  let r := q - (f : ℚ)
  if r < 1/2 then f
  else if 1/2 < r then f + 1
  else if f % 2 = 0 then f else f + 1

/-- `2 ^ e` as a rational, for an integer exponent. -/
def pow2Z (e : ℤ) : ℚ :=
  if 0 ≤ e then ((2 ^ e.toNat : ℕ) : ℚ) else 1 / ((2 ^ (-e).toNat : ℕ) : ℚ)

/-- Fuelled base-2 logarithm on naturals (structural recursion, so the
kernel can evaluate it). -/
def log2fuel : Nat → Nat → Nat
  | 0, _ => 0
  | fuel + 1, n => if n ≤ 1 then 0 else log2fuel fuel (n / 2) + 1

/-- `log2floor n` is the largest `k` with `2 ^ k ≤ n` (for `n ≥ 1`). -/
def log2floor (n : Nat) : Nat := log2fuel n n

/-- Binary exponent of a positive rational: the `e` with
`2 ^ e ≤ q < 2 ^ (e + 1)`. -/
def expOf (q : ℚ) : ℤ :=
  if 1 ≤ q then (log2floor (qfloor q).toNat : ℤ)
  else
    let k : ℤ := -(log2floor (qceil (1 / q)).toNat : ℤ)
    if pow2Z k ≤ q then k else k - 1

/-- Round a positive rational to the nearest binary64 value
(53-bit significand, round to nearest, ties to even). -/
def flPos (q : ℚ) : ℚ :=
  let e := expOf q
  let u := pow2Z (e - 52)
  ((roundNearestEven (q / u) : ℤ) : ℚ) * u

/-- Round an exact rational to the nearest binary64 value.  This is the
result of a JavaScript arithmetic operation whose exact value is `q`
(normal range; overflow and subnormals do not arise for the monetary
magnitudes of this service). -/
def fl (q : ℚ) : ℚ :=
  if q = 0 then 0 else if 0 < q then flPos q else -(flPos (-q))

/-- JavaScript `+` on numbers: exact sum, rounded to binary64. -/
def jsAdd (a b : ℚ) : ℚ := fl (a + b)

/-- JavaScript `*` on numbers: exact product, rounded to binary64. -/
def jsMul (a b : ℚ) : ℚ := fl (a * b)

/-! ## Import code generation -/

/-- Digit characters used by JavaScript `Number.prototype.toString(36)`. -/
def b36digit (n : Nat) : Char := ("0123456789abcdefghijklmnopqrstuvwxyz".toList).getD n '0'

/-- Fuelled base-36 digit expansion, most significant digit first. -/
def toBase36Aux : Nat → Nat → List Char
  | 0, _ => []
  | fuel + 1, n => if n = 0 then [] else toBase36Aux fuel (n / 36) ++ [b36digit (n % 36)]

/-- JavaScript `n.toString(36)` for a natural number. -/
def toBase36 (n : Nat) : String :=
  if n = 0 then "0" else String.mk (toBase36Aux n n)

/-- JavaScript `toUpperCase` on the ASCII strings produced by
`generateImportCode` (character-wise uppercasing). -/
def jsToUpper (s : String) : String := String.mk (s.toList.map Char.toUpper)

/-- `generateImportCode` from the source: `IMP-` + the timestamp in
base 36 + `-` + five random base-36 characters, uppercased.  The
timestamp (`Date.now()`) and the random fragment
(`Math.random().toString(36).substr(2, 5)`) are explicit parameters. -/
def generateImportCode (ts : Nat) (rand : String) : String :=
  jsToUpper ("IMP-" ++ toBase36 ts ++ "-" ++ rand)

/-! ## Data model -/

/-- A row of the `imports` table. -/
structure ImportRow where
  id : Nat
  import_code : String
  user_id : Nat
  supplier_id : Int
  status : String
  total_amount : ℚ
  import_date : String
  estimated_arrival : Option String
  tracking_number : Option String
  notes : Option String
  created_at : Nat
  updated_at : Nat
deriving DecidableEq

/-- A row of the `import_items` table.  The autoincrement surrogate id
and `created_at` column are never read by any query of the service and
are omitted. -/
structure ItemRow where
  import_id : Nat
  product_id : Int
  quantity : Int
  unit_price : ℚ
  total_price : ℚ
deriving DecidableEq

/-- A row of the `suppliers` table (the fields the service reads). -/
structure Supplier where
  id : Int
  name : String
  country : String
deriving DecidableEq

/-- A row of the `products` table (the fields the service reads). -/
structure Product where
  id : Int
  name : String
  description : String
deriving DecidableEq

/-- The authenticated caller, as placed on `req.user` by the
`authenticateToken` middleware (`SELECT id, username, email, role`). -/
structure User where
  id : Nat
  username : String
  email : String
  role : String
deriving DecidableEq

/-- The database state visible to the imports service. -/
structure DB where
  imports : List ImportRow
  import_items : List ItemRow
  suppliers : List Supplier
  products : List Product
deriving DecidableEq

/-- An error response: HTTP status plus the `error` message body. -/
structure ErrResp where
  status : Nat
  msg : String
deriving DecidableEq

/-- The not-found response of the service
(`404 Importación no encontrada`). -/
def notFoundResp : ErrResp := ⟨404, "Importación no encontrada"⟩

/-- The generic internal-error response
(`500 Error interno del servidor`). -/
def internalErrResp : ErrResp := ⟨500, "Error interno del servidor"⟩

/-- One item of a create request, after Joi validation has typed the
fields (`product_id`, `quantity` integers; `unit_price` a JS number,
i.e. a binary64 value carried as its exact rational). -/
structure CreateItem where
  product_id : Int
  quantity : Int
  unit_price : ℚ
deriving DecidableEq

/-- The body of `POST /api/imports`, after JSON parsing. -/
structure CreateReq where
  supplier_id : Int
  import_date : String
  estimated_arrival : Option String
  notes : Option String
  items : List CreateItem
deriving DecidableEq

/-! ## POST /api/imports (order creation) -/

/-- The Joi `importSchema` check, returning the first failing
validation (messages abbreviated; the handler only forwards
`error.details[0].message` as a 400 body).  Checks in schema order:
`supplier_id` positive integer, `notes` at most 500 characters,
`items` non-empty, each item with positive integer `product_id` and
`quantity` and positive `unit_price`. -/
def joiValidateImport (req : CreateReq) : Option String :=
  if req.supplier_id ≤ 0 then some "supplier_id must be a positive number"
  else if 500 < (match req.notes with | some n => n.length | none => 0) then
    some "notes length must be at most 500 characters long"
  else if req.items.isEmpty then some "items must contain at least 1 items"
  else
    match req.items.find? (fun it =>
        decide (it.product_id ≤ 0 ∨ it.quantity ≤ 0 ∨ it.unit_price ≤ 0)) with
    | some _ => some "items contains an invalid item"
    | none => none

/-- The total-amount accumulation of the create handler:
`let totalAmount = 0; for (const item of items) totalAmount +=
item.quantity * item.unit_price;` — binary64 multiplication and
addition at every step. -/
def computeTotalAmount (items : List CreateItem) : ℚ :=
  items.foldl (fun acc it => jsAdd acc (jsMul (it.quantity : ℚ) it.unit_price)) 0

/-- The item-insertion loop of the create handler.  `itemFail k`
says that the `INSERT INTO import_items` for the `k`-th item is
rejected by the storage engine; the loop then aborts inside the
`try`, leaving every row already inserted in place (each statement
autocommits; there is no surrounding transaction).  Returns the
database after the loop and whether every insertion succeeded. -/
def insertItems (importId : Nat) (itemFail : Nat → Bool) :
    DB → Nat → List CreateItem → DB × Bool
  | dbAcc, _, [] => (dbAcc, true)
  | dbAcc, idx, it :: rest =>
    if itemFail idx then (dbAcc, false)
    else
      let row : ItemRow :=
        ⟨importId, it.product_id, it.quantity, it.unit_price,
          jsMul (it.quantity : ℚ) it.unit_price⟩
      insertItems importId itemFail
        { dbAcc with import_items := dbAcc.import_items ++ [row] } (idx + 1) rest

/-- The `POST /api/imports` handler.  `uid` is the authenticated
caller's id, `newId` the autoincrement id assigned to the new header
row, `ts` the `Date.now()` timestamp, `now` the `CURRENT_TIMESTAMP`
tick, `rand` the random fragment of the import code, and `itemFail`
the storage-fault schedule for the item loop.  The header `INSERT`
fails (HTTP 500 via the `catch`) when the generated code violates the
`UNIQUE(import_code)` constraint; the code is generated once and the
insertion is never retried. -/
def createOrder (db : DB) (uid : Nat) (req : CreateReq) (newId ts now : Nat)
    (rand : String) (itemFail : Nat → Bool) : Except ErrResp ImportRow × DB :=
  match joiValidateImport req with
  | some msg => (.error ⟨400, msg⟩, db)
  | none =>
    let totalAmount := computeTotalAmount req.items
    let code := generateImportCode ts rand
    if db.imports.any (fun r => r.import_code == code) then
      (.error internalErrResp, db)
    else
      let header : ImportRow :=
        ⟨newId, code, uid, req.supplier_id, "pending", totalAmount,
          req.import_date, req.estimated_arrival, none, req.notes, now, now⟩
      let db1 : DB := { db with imports := db.imports ++ [header] }
      match insertItems newId itemFail db1 0 req.items with
      | (db2, false) => (.error internalErrResp, db2)
      | (db2, true) => (.ok header, db2)

/-! ## GET /api/imports (list) and GET /api/imports/:id (detail) -/

/-- The row filter of the list query: non-administrative callers get
`AND i.user_id = ?` appended; the optional `status` and `supplier_id`
query parameters append further equality filters. -/
def listFilter (u : User) (statusF : Option String) (supplierF : Option Int)
    (r : ImportRow) : Bool :=
  (u.role == "admin" || r.user_id == u.id) &&
  (match statusF with | none => true | some s => r.status == s) &&
  (match supplierF with | none => true | some sid => r.supplier_id == sid)

/-- The `GET /api/imports` handler: the filtered rows ordered by
`created_at DESC`.  The `LEFT JOIN`s only add supplier/creator display
columns and neither drop nor duplicate rows (join keys are primary
keys), so the result rows are modelled by the base `imports` rows. -/
def listImports (db : DB) (u : User) (statusF : Option String)
    (supplierF : Option Int) : List ImportRow :=
  List.insertionSort (fun a b => b.created_at ≤ a.created_at)
    (db.imports.filter (listFilter u statusF supplierF))

/-- The `GET /api/imports/:id` handler: selects the row with the given
id (non-administrative callers additionally need `i.user_id = ?`);
an empty result is answered with the 404 response, otherwise the row
is returned together with its items (enriched with product display
columns by a `LEFT JOIN`, modelled by the base item rows). -/
def getImport (db : DB) (u : User) (iid : Nat) :
    Except ErrResp (ImportRow × List ItemRow) :=
  match db.imports.filter (fun r =>
      r.id == iid && (u.role == "admin" || r.user_id == u.id)) with
  | [] => .error notFoundResp
  | r :: _ => .ok (r, db.import_items.filter (fun it => it.import_id == iid))

/-! ## PUT /api/imports/:id/status -/

/-- The fixed list of valid states, exactly as in the handler. -/
def validStatuses : List String :=
  ["pending", "processing", "shipped", "in_transit", "customs", "delivered", "cancelled"]

/-- JavaScript `tracking_number || null`: an absent field — and any
falsy value, in particular the empty string — is stored as `NULL`. -/
def jsOrNull (t : Option String) : Option String :=
  match t with
  | some s => if s = "" then none else some s
  | none => none

/-- The effect of the `UPDATE imports SET status = ?, tracking_number
= ?, updated_at = CURRENT_TIMESTAMP WHERE id = ?` statement on one
row: rows whose id does not match are untouched. -/
def updRow (iid : Nat) (status : String) (tracking : Option String)
    (now : Nat) (r : ImportRow) : ImportRow :=
  if r.id = iid then
    { r with status := status, tracking_number := jsOrNull tracking,
             updated_at := now }
  else r

/-- The `PUT /api/imports/:id/status` handler (admin-only route; the
`authorize(['admin'])` middleware has already admitted the caller).
An unknown status is rejected with 400 before any mutation.  Otherwise
the `UPDATE` runs first — matching zero rows when the id is unknown —
and only then the re-query decides between 404 and the updated row. -/
def updateStatus (db : DB) (iid : Nat) (status : String)
    (tracking : Option String) (now : Nat) : Except ErrResp ImportRow × DB :=
  if status ∈ validStatuses then
    let db' : DB := { db with imports := db.imports.map (updRow iid status tracking now) }
    match db'.imports.filter (fun r => r.id == iid) with
    | [] => (.error notFoundResp, db')
    | r :: _ => (.ok r, db')
  else (.error ⟨400, "Estado inválido"⟩, db)

/-! ## GET /api/imports/stats/dashboard -/

/-- One row of the status-breakdown aggregate
(`SELECT status, COUNT(*), SUM(total_amount) ... GROUP BY status`). -/
structure StatusStat where
  status : String
  count : Nat
  total_value : ℚ
deriving DecidableEq

/-- SQLite `SUM(total_amount)` over a group: binary64 accumulation of
the stored amounts (`NULL` only for an empty group, which the
status-breakdown query never produces). -/
def sumAmounts (rows : List ImportRow) : ℚ :=
  rows.foldl (fun acc r => jsAdd acc r.total_amount) 0

/-- The status-breakdown aggregate: one output row per distinct
`status` value present among the orders. -/
def statusStats (db : DB) : List StatusStat :=
  ((db.imports.map (fun r => r.status)).dedup).map (fun s =>
    let grp := db.imports.filter (fun r => r.status == s)
    ⟨s, grp.length, sumAmounts grp⟩)

/-- One row of the top-suppliers aggregate: display name, `COUNT(i.id)`
and `SUM(i.total_amount)`.  For a supplier with no orders the outer
join yields only `NULL` order columns, so the count is `0` and the sum
is `NULL` (modelled by `none`). -/
structure SupplierStat where
  name : String
  imports_count : Nat
  total_value : Option ℚ
deriving DecidableEq

/-- The aggregate row of one supplier under
`LEFT JOIN imports i ON s.id = i.supplier_id GROUP BY s.id, s.name`. -/
def supplierStat (db : DB) (s : Supplier) : SupplierStat :=
  let grp := db.imports.filter (fun r => r.supplier_id == s.id)
  ⟨s.name, grp.length, if grp.isEmpty then none else some (sumAmounts grp)⟩

/-- The candidate rows of the top-suppliers query: one per supplier
(including suppliers with zero orders, via the outer join). -/
def supplierStats (db : DB) : List SupplierStat :=
  db.suppliers.map (supplierStat db)

/-- SQLite `ORDER BY ... DESC` comparison on a nullable aggregate:
`NULL` sorts below every value, so it comes last in descending
order. -/
def nullLeB (a b : Option ℚ) : Bool :=
  match a, b with
  | none, _ => true
  | some _, none => false
  | some x, some y => decide (x ≤ y)

/-- Row ordering of `ORDER BY total_value DESC`: `a` may precede `b`
when `b`'s total value is at most `a`'s. -/
abbrev topSuppliersOrder (a b : SupplierStat) : Prop :=
  nullLeB b.total_value a.total_value = true

instance : DecidableRel topSuppliersOrder := fun a b =>
  instDecidableEqBool (nullLeB b.total_value a.total_value) true

instance : IsTotal SupplierStat topSuppliersOrder :=
  ⟨fun a b => by
    have key : ∀ x y : Option ℚ, nullLeB x y = true ∨ nullLeB y x = true := by
      intro x y
      match x, y with
      | none, _ => exact Or.inl rfl
      | some q, none => exact Or.inr rfl
      | some q, some p =>
        rcases le_total q p with h | h
        · exact Or.inl (by simpa [nullLeB] using h)
        · exact Or.inr (by simpa [nullLeB] using h)
    exact key b.total_value a.total_value⟩

instance : IsTrans SupplierStat topSuppliersOrder :=
  ⟨fun a b c hab hbc => by
    have key : ∀ x y z : Option ℚ,
        nullLeB x y = true → nullLeB y z = true → nullLeB x z = true := by
      intro x y z
      match x, y, z with
      | none, _, _ => intro h1 h2; rfl
      | some q, none, _ => intro h1 h2; exact absurd h1 (by simp [nullLeB])
      | some q, some p, none => intro h1 h2; exact absurd h2 (by simp [nullLeB])
      | some q, some p, some o =>
        intro h1 h2
        simp only [nullLeB, decide_eq_true_eq] at h1 h2 ⊢
        exact le_trans h1 h2
    exact key c.total_value b.total_value a.total_value hbc hab⟩

/-- The top-suppliers aggregate: candidates sorted by total value
descending, truncated by `LIMIT 5`. -/
def topSuppliers (db : DB) : List SupplierStat :=
  (List.insertionSort topSuppliersOrder (supplierStats db)).take 5

/-! ## Concrete fixtures used by witnesses and counterexamples -/

/-- Whether a handler outcome is a success response. -/
def exceptIsOk (x : Except ErrResp ImportRow) : Bool :=
  match x with
  | .ok _ => true
  | .error _ => false

/-- Default row used with `List.getD` in frame statements. -/
def dRow : ImportRow := ⟨0, "", 0, 0, "", 0, "", none, none, none, 0, 0⟩

/-- The empty database. -/
def dbEmpty : DB := ⟨[], [], [], []⟩

/-- A schema-valid create request: supplier 5, one item of product 7,
quantity 1, unit price 1.  Neither supplier 5 nor product 7 exists in
`dbEmpty`. -/
def reqUnit : CreateReq := ⟨5, "2024-01-01", none, none, [⟨7, 1, 1⟩]⟩

/-- A create request whose two items have the binary64 unit prices the
JSON parser produces for the decimal literals `0.1` and `0.2`
(quantity 1 each): the canonical pair on which binary64 accumulation
drifts away from the exact decimal sum `0.30`. -/
def reqDrift : CreateReq :=
  ⟨5, "2024-01-01", none, none, [⟨7, 1, fl (1/10)⟩, ⟨8, 1, fl (2/10)⟩]⟩

/-- A non-administrative user. -/
def userN : User := ⟨1, "importer1", "importer1@company.com", "user"⟩

/-- An order of user 1 (supplier 1), status `pending`. -/
def rowP : ImportRow :=
  ⟨1, "IMP-A-ABCDE", 1, 1, "pending", 1, "2024-01-01", none, none, none, 10, 10⟩

/-- An order of user 2 (supplier 2), status `shipped`. -/
def rowQ : ImportRow :=
  ⟨2, "IMP-A-FGHIJ", 2, 2, "shipped", 2, "2024-01-02", none, none, none, 11, 11⟩

/-- A database with one order per user and two suppliers. -/
def dbTwo : DB := ⟨[rowP, rowQ], [], [⟨1, "Tech", "China"⟩, ⟨2, "Euro", "Alemania"⟩], []⟩

/-! ## Claims -/

/-- C1: the claim says `totalAmount` equals `Σ quantity·unitPrice`
computed with decimal-safe arithmetic, exact to the currency's minor
unit with no floating-point rounding drift.  The handler instead
accumulates with binary64 arithmetic (`totalAmount += item.quantity *
item.unit_price`).  On the valid request `reqDrift` (unit prices `0.1`
and `0.2`, quantities 1) the stored and returned total is the drifted
binary64 value `0.30000000000000004` (exactly
`1351079888211149/2^52`): it differs from the exact decimal sum
`3/10`, and even from the binary64 value nearest to `0.3`, so the
drift is observable in the serialized response. -/
theorem c1_total_amount_drifts :
    computeTotalAmount reqDrift.items = 1351079888211149/4503599627370496 ∧
    computeTotalAmount reqDrift.items ≠ 3/10 ∧
    computeTotalAmount reqDrift.items ≠ fl (3/10) ∧
    (createOrder dbEmpty 1 reqDrift 1 10 10 "abcde" (fun _ => false)).2.imports.map
      (fun r => r.total_amount) = [1351079888211149/4503599627370496] ∧
    (createOrder dbEmpty 1 reqDrift 1 10 10 "abcde" (fun _ => false)).1 =
      Except.ok ⟨1, "IMP-A-ABCDE", 1, 5, "pending", 1351079888211149/4503599627370496,
        "2024-01-01", none, none, none, 10, 10⟩ := by
  refine ⟨by decide, by decide, by decide, by decide, by decide⟩

/-- C2: the claim says order creation is atomic — if any item
insertion fails, no partial order remains visible to list or detail
reads.  The handler has no transaction: each `INSERT` autocommits.
When the single item's insertion fails, the handler answers 500, yet
the already-inserted header row remains, with no item rows, and a
subsequent list read by the owner returns it and a detail read finds
it. -/
theorem c2_partial_order_visible_after_item_failure :
    (createOrder dbEmpty 1 reqUnit 1 10 10 "abcde" (fun _ => true)).1 =
      Except.error internalErrResp ∧
    (createOrder dbEmpty 1 reqUnit 1 10 10 "abcde" (fun _ => true)).2.imports =
      [⟨1, "IMP-A-ABCDE", 1, 5, "pending", 1, "2024-01-01", none, none, none, 10, 10⟩] ∧
    (createOrder dbEmpty 1 reqUnit 1 10 10 "abcde" (fun _ => true)).2.import_items = [] ∧
    listImports (createOrder dbEmpty 1 reqUnit 1 10 10 "abcde" (fun _ => true)).2
      userN none none ≠ [] ∧
    getImport (createOrder dbEmpty 1 reqUnit 1 10 10 "abcde" (fun _ => true)).2
      userN 1 ≠ Except.error notFoundResp := by
  refine ⟨by decide, by decide, by decide, by decide, by decide⟩

/-- C3: the claim says a uniqueness conflict at insertion causes the
generation to be retried, so creations never fail on colliding codes.
The handler generates the code once; when the `UNIQUE(import_code)`
constraint rejects the header insertion the `catch` answers 500 and
nothing is retried: with an order carrying code `IMP-A-ABCDE` already
stored and the generator reproducing timestamp 10 and random fragment
`abcde`, creation fails and the database is left exactly as it was
(no order under any freshly generated code). -/
theorem c3_conflict_fails_without_retry :
    generateImportCode 10 "abcde" = "IMP-A-ABCDE" ∧
    rowP.import_code = "IMP-A-ABCDE" ∧
    (createOrder dbTwo 1 reqUnit 3 10 20 "abcde" (fun _ => false)).1 =
      Except.error internalErrResp ∧
    (createOrder dbTwo 1 reqUnit 3 10 20 "abcde" (fun _ => false)).2 = dbTwo := by
  refine ⟨by decide, by decide, by decide, by decide⟩

/-! ## Helper lemmas -/

/-- For a known status, the database after `updateStatus` is the
original one with the `UPDATE` mapped over the `imports` rows,
whether or not the re-query found the row. -/
theorem updateStatus_snd_of_valid (db : DB) (iid : Nat) (st : String)
    (tr : Option String) (now : Nat) (hst : st ∈ validStatuses) :
    (updateStatus db iid st tr now).2 =
      { db with imports := db.imports.map (updRow iid st tr now) } := by
  simp only [updateStatus, if_pos hst]
  split <;> rfl

/-- When no insertion of the loop is rejected, the loop reports
success. -/
theorem insertItems_snd_of_no_fail (importId : Nat) (itemFail : Nat → Bool)
    (hfail : ∀ k, itemFail k = false) :
    ∀ (items : List CreateItem) (dbAcc : DB) (idx : Nat),
      (insertItems importId itemFail dbAcc idx items).2 = true := by
  intro items
  induction items with
  | nil => intro dbAcc idx; rfl
  | cons it rest ih =>
    intro dbAcc idx
    simp only [insertItems, hfail idx, Bool.false_eq_true, if_false]
    exact ih _ _

/-! ## Claims C4-C10 -/

/-- C4: for an existing order and an administrative caller, the
status update succeeds exactly when the supplied value is one of the
seven known labels — regardless of the order's current state, since no
hypothesis relates the stored status to the new one — and an unknown
value is rejected with the 400 validation response, leaving the
database (in particular the order's prior status) unchanged. -/
theorem c4_status_validation (db : DB) (iid : Nat) (st : String)
    (tr : Option String) (now : Nat) (r : ImportRow)
    (hr : r ∈ db.imports) (hid : r.id = iid) :
    ((∃ r0, (updateStatus db iid st tr now).1 = Except.ok r0) ↔ st ∈ validStatuses) ∧
    (st ∉ validStatuses →
      (updateStatus db iid st tr now).1 = Except.error ⟨400, "Estado inválido"⟩ ∧
      (updateStatus db iid st tr now).2 = db) := by
  by_cases hst : st ∈ validStatuses
  · have hmem : updRow iid st tr now r ∈
        (db.imports.map (updRow iid st tr now)).filter (fun x => x.id == iid) := by
      refine List.mem_filter.mpr ⟨List.mem_map_of_mem _ hr, ?_⟩
      have : (updRow iid st tr now r).id = iid := by
        simp [updRow, hid]
      simp [this]
    refine ⟨?_, fun h => absurd hst h⟩
    constructor
    · intro _; exact hst
    · intro _
      rcases hfil : (db.imports.map (updRow iid st tr now)).filter (fun x => x.id == iid) with
        _ | ⟨r0, rest⟩
      · rw [hfil] at hmem; exact absurd hmem (List.not_mem_nil _)
      · refine ⟨r0, ?_⟩
        simp [updateStatus, hst, hfil]
  · refine ⟨?_, fun _ => by constructor <;> simp [updateStatus, hst]⟩
    constructor
    · rintro ⟨r0, hr0⟩
      simp [updateStatus, hst] at hr0
    · intro h; exact absurd h hst

/-- C4 witness: with order `rowP` (id 1) stored, updating to
`shipped` is possible and the invalid-status clause holds vacuously. -/
theorem c4_status_validation_witness :
    ((∃ r0, (updateStatus dbTwo 1 "shipped" (some "TRK123") 20).1 = Except.ok r0) ↔
      "shipped" ∈ validStatuses) ∧
    ("shipped" ∉ validStatuses →
      (updateStatus dbTwo 1 "shipped" (some "TRK123") 20).1 =
        Except.error ⟨400, "Estado inválido"⟩ ∧
      (updateStatus dbTwo 1 "shipped" (some "TRK123") 20).2 = dbTwo) :=
  c4_status_validation dbTwo 1 "shipped" (some "TRK123") 20 rowP (by decide) (by decide)

/-- C5: a non-administrative caller's list results contain only their
own orders, and a detail request for an order identifier that no
order of theirs carries — whether it belongs to another user or to no
order at all — is answered with exactly the `notFoundResp` response,
so the two cases are indistinguishable. -/
theorem c5_ownership_confidentiality (db : DB) (u : User) (sf : Option String)
    (pf : Option Int) (iid : Nat)
    (hrole : u.role ≠ "admin")
    (hforeign : ∀ r ∈ db.imports, r.id = iid → r.user_id ≠ u.id) :
    (∀ r ∈ listImports db u sf pf, r.user_id = u.id) ∧
    getImport db u iid = Except.error notFoundResp := by
  constructor
  · intro r hmem
    unfold listImports at hmem
    have hmem' : r ∈ db.imports.filter (listFilter u sf pf) :=
      (List.perm_insertionSort _ _).mem_iff.mp hmem
    have hp := (List.mem_filter.mp hmem').2
    simp [listFilter, hrole] at hp
    exact hp.1.1
  · have hfil : db.imports.filter (fun r =>
        r.id == iid && (u.role == "admin" || r.user_id == u.id)) = [] := by
      refine List.filter_eq_nil_iff.mpr (fun r hr => ?_)
      by_cases hidr : r.id = iid
      · have hown := hforeign r hr hidr
        simp [hidr, hrole, hown]
      · simp [hidr]
    simp [getImport, hfil]

/-- C5 witness: user 1 lists only their own order and receives the
not-found response for user 2's order id 2 — the same value
`notFoundResp` the handler returns for an id matching no order. -/
theorem c5_ownership_confidentiality_witness :
    (∀ r ∈ listImports dbTwo userN none none, r.user_id = userN.id) ∧
    getImport dbTwo userN 2 = Except.error notFoundResp :=
  c5_ownership_confidentiality dbTwo userN none none 2 (by decide) (by decide)

/-- C6: a successful status update leaves the item table, the
supplier and product tables and the number of orders unchanged; every
order keeps its `id`, `importCode`, `ownerUserId`, `supplierId`,
`totalAmount`, `importDate`, `estimatedArrival`, `notes` and
`createdAt`; rows with a different id are completely untouched; and
the matched row gets exactly the new status, the refreshed
`updatedAt`, and `jsOrNull tr` as tracking number — in particular a
request passing no `tracking_number` clears the stored one. -/
theorem c6_update_frame (db : DB) (iid : Nat) (st : String) (tr : Option String)
    (now i : Nat) (hst : st ∈ validStatuses) (hi : i < db.imports.length) :
    (updateStatus db iid st tr now).2.import_items = db.import_items ∧
    (updateStatus db iid st tr now).2.suppliers = db.suppliers ∧
    (updateStatus db iid st tr now).2.products = db.products ∧
    (updateStatus db iid st tr now).2.imports.length = db.imports.length ∧
    ((updateStatus db iid st tr now).2.imports.getD i dRow).id = (db.imports.getD i dRow).id ∧
    ((updateStatus db iid st tr now).2.imports.getD i dRow).import_code = (db.imports.getD i dRow).import_code ∧
    ((updateStatus db iid st tr now).2.imports.getD i dRow).user_id = (db.imports.getD i dRow).user_id ∧
    ((updateStatus db iid st tr now).2.imports.getD i dRow).supplier_id = (db.imports.getD i dRow).supplier_id ∧
    ((updateStatus db iid st tr now).2.imports.getD i dRow).total_amount = (db.imports.getD i dRow).total_amount ∧
    ((updateStatus db iid st tr now).2.imports.getD i dRow).import_date = (db.imports.getD i dRow).import_date ∧
    ((updateStatus db iid st tr now).2.imports.getD i dRow).estimated_arrival = (db.imports.getD i dRow).estimated_arrival ∧
    ((updateStatus db iid st tr now).2.imports.getD i dRow).notes = (db.imports.getD i dRow).notes ∧
    ((updateStatus db iid st tr now).2.imports.getD i dRow).created_at = (db.imports.getD i dRow).created_at ∧
    ((db.imports.getD i dRow).id ≠ iid →
      (updateStatus db iid st tr now).2.imports.getD i dRow = db.imports.getD i dRow) ∧
    ((db.imports.getD i dRow).id = iid →
      ((updateStatus db iid st tr now).2.imports.getD i dRow).status = st ∧
      ((updateStatus db iid st tr now).2.imports.getD i dRow).updated_at = now ∧
      ((updateStatus db iid st tr now).2.imports.getD i dRow).tracking_number = jsOrNull tr ∧
      (tr = none → ((updateStatus db iid st tr now).2.imports.getD i dRow).tracking_number = none)) := by
  have hsnd := updateStatus_snd_of_valid db iid st tr now hst
  have hget : (updateStatus db iid st tr now).2.imports.getD i dRow =
      updRow iid st tr now (db.imports.getD i dRow) := by
    rw [hsnd]
    have h1 : i < (db.imports.map (updRow iid st tr now)).length := by simpa using hi
    rw [show ({ db with imports := db.imports.map (updRow iid st tr now) } : DB).imports
          = db.imports.map (updRow iid st tr now) from rfl]
    rw [List.getD_eq_getElem _ _ h1, List.getD_eq_getElem _ _ hi, List.getElem_map]
  rw [hget, hsnd]
  set r := db.imports.getD i dRow with hr
  by_cases hid : r.id = iid
  · simp only [updRow, if_pos hid]
    simp [hid]
    intro htr
    simp [jsOrNull, htr]
  · simp only [updRow, if_neg hid]
    simp [hid]

/-- C6 witness: updating order 1 of `dbTwo` to `delivered` with no
tracking number, read back at index 0. -/
theorem c6_update_frame_witness :
    (updateStatus dbTwo 1 "delivered" none 30).2.import_items = dbTwo.import_items ∧
    (updateStatus dbTwo 1 "delivered" none 30).2.suppliers = dbTwo.suppliers ∧
    (updateStatus dbTwo 1 "delivered" none 30).2.products = dbTwo.products ∧
    (updateStatus dbTwo 1 "delivered" none 30).2.imports.length = dbTwo.imports.length ∧
    ((updateStatus dbTwo 1 "delivered" none 30).2.imports.getD 0 dRow).id = (dbTwo.imports.getD 0 dRow).id ∧
    ((updateStatus dbTwo 1 "delivered" none 30).2.imports.getD 0 dRow).import_code = (dbTwo.imports.getD 0 dRow).import_code ∧
    ((updateStatus dbTwo 1 "delivered" none 30).2.imports.getD 0 dRow).user_id = (dbTwo.imports.getD 0 dRow).user_id ∧
    ((updateStatus dbTwo 1 "delivered" none 30).2.imports.getD 0 dRow).supplier_id = (dbTwo.imports.getD 0 dRow).supplier_id ∧
    ((updateStatus dbTwo 1 "delivered" none 30).2.imports.getD 0 dRow).total_amount = (dbTwo.imports.getD 0 dRow).total_amount ∧
    ((updateStatus dbTwo 1 "delivered" none 30).2.imports.getD 0 dRow).import_date = (dbTwo.imports.getD 0 dRow).import_date ∧
    ((updateStatus dbTwo 1 "delivered" none 30).2.imports.getD 0 dRow).estimated_arrival = (dbTwo.imports.getD 0 dRow).estimated_arrival ∧
    ((updateStatus dbTwo 1 "delivered" none 30).2.imports.getD 0 dRow).notes = (dbTwo.imports.getD 0 dRow).notes ∧
    ((updateStatus dbTwo 1 "delivered" none 30).2.imports.getD 0 dRow).created_at = (dbTwo.imports.getD 0 dRow).created_at ∧
    ((dbTwo.imports.getD 0 dRow).id ≠ 1 →
      (updateStatus dbTwo 1 "delivered" none 30).2.imports.getD 0 dRow = dbTwo.imports.getD 0 dRow) ∧
    ((dbTwo.imports.getD 0 dRow).id = 1 →
      ((updateStatus dbTwo 1 "delivered" none 30).2.imports.getD 0 dRow).status = "delivered" ∧
      ((updateStatus dbTwo 1 "delivered" none 30).2.imports.getD 0 dRow).updated_at = 30 ∧
      ((updateStatus dbTwo 1 "delivered" none 30).2.imports.getD 0 dRow).tracking_number = jsOrNull none ∧
      (none = (none : Option String) →
        ((updateStatus dbTwo 1 "delivered" none 30).2.imports.getD 0 dRow).tracking_number = none)) :=
  c6_update_frame dbTwo 1 "delivered" none 30 0 (by decide) (by decide)

/-- C7 counterexample: against a database containing no suppliers and
no products at all, a create request referencing supplier 5 and
product 7 is accepted with 201 and persisted — creation does not
reject references to nonexistent suppliers or products. -/
theorem c7_counterexample_dangling_accepted :
    dbEmpty.suppliers = [] ∧ dbEmpty.products = [] ∧
    reqUnit.supplier_id = 5 ∧ (reqUnit.items.map (fun it => it.product_id)) = [7] ∧
    (createOrder dbEmpty 1 reqUnit 1 10 10 "abcde" (fun _ => false)).1 =
      Except.ok ⟨1, "IMP-A-ABCDE", 1, 5, "pending", 1, "2024-01-01", none, none, none, 10, 10⟩ ∧
    (createOrder dbEmpty 1 reqUnit 1 10 10 "abcde" (fun _ => false)).2.imports.length = 1 := by
  refine ⟨rfl, rfl, by decide, by decide, by decide, by decide⟩

/-- C7 (amended): creation validates only that the supplier and
product references are positive integers; it performs no existence
lookup, so a schema-valid request is accepted whenever the storage
layer cooperates (fresh code, no insert fault) — with no hypothesis
whatsoever about the referenced supplier or products existing. -/
theorem c7_no_existence_check (db : DB) (uid : Nat) (req : CreateReq)
    (newId ts now : Nat) (rand : String) (itemFail : Nat → Bool)
    (hval : joiValidateImport req = none)
    (hcode : db.imports.any (fun r => r.import_code == generateImportCode ts rand) = false)
    (hfail : ∀ k, itemFail k = false) :
    exceptIsOk (createOrder db uid req newId ts now rand itemFail).1 = true := by
  simp only [createOrder, hval, hcode, Bool.false_eq_true, if_false]
  split
  · rename_i db2 heq
    have h2 := congrArg Prod.snd heq
    rw [insertItems_snd_of_no_fail newId itemFail hfail] at h2
    simp at h2
  · rfl

/-- C7 witness: the amended theorem applied to the empty database and
the dangling request. -/
theorem c7_no_existence_check_witness :
    exceptIsOk (createOrder dbEmpty 1 reqUnit 1 10 10 "abcde" (fun _ => false)).1 = true :=
  c7_no_existence_check dbEmpty 1 reqUnit 1 10 10 "abcde" (fun _ => false)
    (by decide) (by decide) (fun _ => rfl)

/-- C8: for every database state the top-suppliers aggregate has at
most 5 entries, is sorted by total order value descending (`NULL`
totals of zero-order suppliers sorting last), every entry is the
aggregate row of one of the stored suppliers, and every stored
supplier — including those with zero orders — contributes a candidate
row to the ranking. -/
theorem c8_top_suppliers_shape (db : DB) :
    (topSuppliers db).length ≤ 5 ∧
    List.Pairwise topSuppliersOrder (topSuppliers db) ∧
    (∀ e ∈ topSuppliers db, ∃ s ∈ db.suppliers, e = supplierStat db s) ∧
    (∀ s ∈ db.suppliers,
      supplierStat db s ∈ List.insertionSort topSuppliersOrder (supplierStats db)) := by
  refine ⟨?_, ?_, ?_, ?_⟩
  · simp [topSuppliers]
  · exact (List.sorted_insertionSort topSuppliersOrder (supplierStats db)).sublist
      (List.take_sublist 5 _)
  · intro e he
    have he1 : e ∈ List.insertionSort topSuppliersOrder (supplierStats db) :=
      (List.take_sublist 5 _).subset he
    have he2 : e ∈ supplierStats db :=
      (List.perm_insertionSort topSuppliersOrder _).mem_iff.mp he1
    rcases List.mem_map.mp he2 with ⟨s, hs, hes⟩
    exact ⟨s, hs, hes.symm⟩
  · intro s hs
    exact (List.perm_insertionSort topSuppliersOrder _).mem_iff.mpr
      (List.mem_map_of_mem _ hs)

/-- C8 witness: the shape properties evaluated on `dbTwo` (two
suppliers, one with an order and one without). -/
theorem c8_top_suppliers_shape_witness :
    (topSuppliers dbTwo).length ≤ 5 ∧
    List.Pairwise topSuppliersOrder (topSuppliers dbTwo) ∧
    (∀ e ∈ topSuppliers dbTwo, ∃ s ∈ dbTwo.suppliers, e = supplierStat dbTwo s) ∧
    (∀ s ∈ dbTwo.suppliers,
      supplierStat dbTwo s ∈ List.insertionSort topSuppliersOrder (supplierStats dbTwo)) :=
  c8_top_suppliers_shape dbTwo

/-- C9: the status breakdown has exactly one entry per distinct
status value present among the orders (its status column is the
deduplicated status list, without repetition), and the per-status
order counts sum to the total number of orders. -/
theorem c9_status_breakdown_partition (db : DB) :
    (statusStats db).map (fun e => e.status) = (db.imports.map (fun r => r.status)).dedup ∧
    ((statusStats db).map (fun e => e.status)).Nodup ∧
    ((statusStats db).map (fun e => e.count)).sum = db.imports.length := by
  have h1 : (statusStats db).map (fun e => e.status) =
      (db.imports.map (fun r => r.status)).dedup := by
    simp [statusStats, List.map_map, Function.comp_def]
  refine ⟨h1, ?_, ?_⟩
  · rw [h1]; exact List.nodup_dedup _
  · have h2 : ∀ s, ((db.imports.filter (fun r => r.status == s)).length) =
        (db.imports.map (fun r => r.status)).count s := by
      intro s
      rw [List.count, List.countP_map]
      rw [← List.countP_eq_length_filter]
      rfl
    have h3 : (statusStats db).map (fun e => e.count) =
        ((db.imports.map (fun r => r.status)).dedup).map
          (fun s => (db.imports.map (fun r => r.status)).count s) := by
      simp only [statusStats, List.map_map]
      exact List.map_congr_left (fun s _ => h2 s)
    rw [h3, List.sum_map_count_dedup_eq_length, List.length_map]

/-- C9 witness: the partition properties evaluated on `dbTwo`. -/
theorem c9_status_breakdown_partition_witness :
    (statusStats dbTwo).map (fun e => e.status) =
      (dbTwo.imports.map (fun r => r.status)).dedup ∧
    ((statusStats dbTwo).map (fun e => e.status)).Nodup ∧
    ((statusStats dbTwo).map (fun e => e.count)).sum = dbTwo.imports.length :=
  c9_status_breakdown_partition dbTwo

/-- C10: an administrative status update carrying a valid label but
an order id matching no stored order returns the not-found response
and leaves the database unchanged — the handler issues the `UPDATE`
before the existence check, but it matches zero rows. -/
theorem c10_unknown_id_is_noop (db : DB) (iid : Nat) (st : String)
    (tr : Option String) (now : Nat)
    (hst : st ∈ validStatuses) (hnone : ∀ r ∈ db.imports, r.id ≠ iid) :
    (updateStatus db iid st tr now).1 = Except.error notFoundResp ∧
    (updateStatus db iid st tr now).2 = db := by
  have hmap : db.imports.map (updRow iid st tr now) = db.imports := by
    have h1 : db.imports.map (updRow iid st tr now) = db.imports.map id :=
      List.map_congr_left (fun r hr => by simp [updRow, hnone r hr])
    simpa using h1
  have hfil : db.imports.filter (fun r => r.id == iid) = [] :=
    List.filter_eq_nil_iff.mpr (fun r hr => by simp [hnone r hr])
  constructor <;> simp [updateStatus, hst, hmap, hfil]

/-- C10 witness: updating nonexistent order 99 of `dbTwo` to
`shipped` yields the not-found response and changes nothing. -/
theorem c10_unknown_id_is_noop_witness :
    (updateStatus dbTwo 99 "shipped" none 20).1 = Except.error notFoundResp ∧
    (updateStatus dbTwo 99 "shipped" none 20).2 = dbTwo :=
  c10_unknown_id_is_noop dbTwo 99 "shipped" none 20 (by decide) (by decide)
